import Mathlib

/-!
Verification of the CRM server against its specification.

The definitions below are a shallow embedding of the TypeScript source:
SQL tables become lists of row structures, route handlers become pure
functions from a database state (plus the request and the values the
handler generates from clocks and randomness) to a new state and an
HTTP response, and JavaScript truthiness on optional strings is made
explicit.  Functions whose only definition in the repository is their
call site (the extended admin store) are modelled from the
specification and carry a doc comment saying so.
-/

namespace CRM

/-- HTTP response envelope: status code plus the `success` flag of the
JSON body. -/
structure Resp where
  status : Nat
  success : Bool
  deriving Repr, DecidableEq

/-- The whitespace characters JavaScript string trimming removes (the
ASCII ones; the repository only ever trims ASCII input). -/
def isWs (c : Char) : Bool :=
  c = ' ' || c = '\t' || c = '\n' || c = '\r'

/-- `trim` on a string, computed on the underlying character list so the
kernel can evaluate it. -/
def jsTrim (s : String) : String :=
  ⟨((s.data.dropWhile isWs).reverse.dropWhile isWs).reverse⟩

/-- `toLowerCase`, computed on the underlying character list. -/
def jsLower (s : String) : String :=
  ⟨s.data.map Char.toLower⟩

/-- `split(sep)` on a character list. -/
def splitCharsOn (sep : Char) : List Char → List Char → List (List Char)
  | [], acc => [acc.reverse]
  | c :: rest, acc =>
    if c = sep then acc.reverse :: splitCharsOn sep rest []
    else splitCharsOn sep rest (c :: acc)

/-- JavaScript `s.split(',')`. -/
def splitComma (s : String) : List String :=
  (splitCharsOn ',' s.data []).map String.mk

/-- JavaScript `array.join(',')` (also how `String(array)` renders an
array). -/
def joinComma : List String → String
  | [] => ""
  | [s] => s
  | s :: rest => s ++ "," ++ joinComma rest

/-- JavaScript `o || d` on an optional string: the default replaces both
a missing value and the empty string. -/
def strOr (o : Option String) (d : String) : String :=
  match o with
  | none => d
  | some s => if s = "" then d else s

/-- JavaScript truthiness coercion of an optional string back to an
optional value: `x ? x : undefined` collapses the empty string to none. -/
def optOr (o : Option String) : Option String :=
  match o with
  | none => none
  | some s => if s = "" then none else some s

/-- JavaScript falsiness test `!x` for an optional string. -/
def isBlank (o : Option String) : Bool :=
  (o.getD "") = ""

/-- Merge of one field under an object spread `\x7b...c, ...patch\x7d`:
a field present in the patch overrides the current value. -/
def mergeOpt (patch : Option String) (cur : Option String) : Option String :=
  match patch with
  | some v => some v
  | none => cur

/-! ## Customers: rows, request bodies, and the customer store -/

/-- A row of the `customers` table as created by `createTables` in
`db.ts`: every column the INSERT statements write. -/
structure CustomerRow where
  id : String
  regId : String
  name : String
  contact : String
  salesmanId : String
  status : String
  familyType : String
  familyMembers : String
  joinDate : String
  expireDate : Option String
  membership : String
  notes : String
  tags : String
  deriving Repr, DecidableEq

/-- The TypeScript `Customer` object handed to `customerDB.addCustomer`:
optional fields are still optional here, the DB layer applies its own
defaults when writing the row. -/
structure CustomerObj where
  id : String
  regId : String
  name : String
  contact : String
  salesmanId : String
  status : String
  familyType : String
  familyMembers : String
  joinDate : String
  expireDate : Option String
  membership : Option String
  notes : Option String
  tags : Option (List String)
  deriving Repr, DecidableEq

/-- The column values `customerDB.addCustomer` binds into its INSERT:
`expireDate || null`, `membership || 'Silver'`, `notes || ''` and the
tag array joined with commas. -/
def customerToRow (c : CustomerObj) : CustomerRow :=
  { id := c.id
    regId := c.regId
    name := c.name
    contact := c.contact
    salesmanId := c.salesmanId
    status := c.status
    familyType := c.familyType
    familyMembers := c.familyMembers
    joinDate := c.joinDate
    expireDate := optOr c.expireDate
    membership := strOr c.membership "Silver"
    notes := strOr c.notes ""
    tags := match c.tags with
      | some l => joinComma l
      | none => "" }

/-- The CHECK constraints of the `customers` table. -/
def rowOk (r : CustomerRow) : Bool :=
  (r.status = "Active" || r.status = "Inactive") &&
  (r.familyType = "Family" || r.familyType = "Individual") &&
  (r.membership = "Gold" || r.membership = "Silver" || r.membership = "Platinum")

/-- An INSERT into `customers` succeeds iff the CHECK constraints hold
and neither the PRIMARY KEY `id` nor the UNIQUE `regId` collides with a
stored row. -/
def insertOk (r : CustomerRow) (tbl : List CustomerRow) : Bool :=
  rowOk r && tbl.all (fun x => x.id ≠ r.id && x.regId ≠ r.regId)

/-- `customerDB.addCustomer`: runs the INSERT and reports success; a
thrown constraint violation is caught and reported as `false` with the
table unchanged. -/
def dbAddCustomer (c : CustomerObj) (tbl : List CustomerRow) :
    List CustomerRow × Bool :=
  let r := customerToRow c
  if insertOk r tbl then (tbl ++ [r], true) else (tbl, false)

/-- `customerDB.getCustomerByRegId`: first row whose `regId` matches. -/
def dbGetCustomerByRegId (regId : String) (tbl : List CustomerRow) :
    Option CustomerRow :=
  tbl.find? (fun r => r.regId = regId)

/-- `customerDB.getCustomerById`. -/
def dbGetCustomerById (id : String) (tbl : List CustomerRow) :
    Option CustomerRow :=
  tbl.find? (fun r => r.id = id)

/-- `customerDB.deleteCustomer`: runs the DELETE and returns `true`
whether or not any row matched. -/
def dbDeleteCustomer (id : String) (tbl : List CustomerRow) :
    List CustomerRow × Bool :=
  (tbl.filter (fun r => r.id ≠ id), true)

/-- `customerDB.addCustomers`: inserts the batch row by row, counting
successes and recording one error message per failed row; the loop
never aborts and the overall result is reported as a success. -/
def dbAddCustomers (cs : List CustomerObj) (tbl : List CustomerRow) :
    List CustomerRow × Nat × List String :=
  match cs with
  | [] => (tbl, 0, [])
  | c :: rest =>
    let r := customerToRow c
    if insertOk r tbl then
      let res := dbAddCustomers rest (tbl ++ [r])
      (res.1, res.2.1 + 1, res.2.2)
    else
      let res := dbAddCustomers rest tbl
      (res.1, res.2.1, ("Error adding customer " ++ c.regId) :: res.2.2)

/-! ## Documents and history rows -/

/-- A row of the `documents` table. -/
structure DocumentRow where
  id : String
  customerId : String
  type : String
  filename : String
  filepath : String
  deriving Repr, DecidableEq

/-- `customerDB.addDocument`: INSERT guarded only by the PRIMARY KEY. -/
def dbAddDocument (d : DocumentRow) (tbl : List DocumentRow) :
    List DocumentRow × Bool :=
  if tbl.any (fun x => x.id = d.id) then (tbl, false) else (tbl ++ [d], true)

/-- `customerDB.listDocuments`: the rows stored for one customer. -/
def dbListDocuments (customerId : String) (tbl : List DocumentRow) :
    List DocumentRow :=
  tbl.filter (fun d => d.customerId = customerId)

/-- `customerDB.deleteDocument`: deletes the row (and its file) and
returns `true` regardless of whether the row existed. -/
def dbDeleteDocument (docId : String) (tbl : List DocumentRow) :
    List DocumentRow × Bool :=
  (tbl.filter (fun d => d.id ≠ docId), true)

/-- A row of the `customer_history` table. -/
structure CustHistRow where
  id : String
  customerId : String
  action : String
  note : Option String
  deriving Repr, DecidableEq

/-- `customerDB.addHistory`: INSERT guarded by the PRIMARY KEY; a
violation is caught inside the function and reported as `false`. -/
def dbAddCustHistory (e : CustHistRow) (tbl : List CustHistRow) :
    List CustHistRow × Bool :=
  if tbl.any (fun x => x.id = e.id) then (tbl, false) else (tbl ++ [e], true)

/-! ## Leads: rows, normalization, and the lead store -/

def LEAD_SOURCES : List String := ["Web", "Call", "WhatsApp", "Other"]
def LEAD_STATUSES : List String := ["New", "Contacted", "Qualified", "Converted", "Lost"]
def LEAD_PRIORITIES : List String := ["Low", "Medium", "High"]

/-- `normalizeLeadSource` from `lead-db.ts`: null or empty maps to
nothing, otherwise a case-insensitive match against the source enum
with unmatched values mapped to `Other`. -/
def normalizeLeadSource (v : Option String) : Option String :=
  match v with
  | none => none
  | some s =>
    if s = "" then none
    else some ((LEAD_SOURCES.find?
      (fun x => jsLower x = jsLower (jsTrim s))).getD "Other")

/-- `normalizeLeadStatus` from `lead-db.ts`: `String(value ?? '')`
trimmed and matched case-insensitively against the status enum,
defaulting to `New`. -/
def normalizeLeadStatus (v : Option String) : String :=
  (LEAD_STATUSES.find?
    (fun s => jsLower s = jsLower (jsTrim (v.getD "")))).getD "New"

/-- `normalizeLeadPriority` from `lead-db.ts`: null or empty maps to
`Medium`, otherwise a trimmed case-insensitive match against the
priority enum, defaulting to `Medium`. -/
def normalizeLeadPriority (v : Option String) : String :=
  match v with
  | none => "Medium"
  | some s =>
    if s = "" then "Medium"
    else (LEAD_PRIORITIES.find?
      (fun p => jsLower p = jsLower (jsTrim s))).getD "Medium"

/-- A row of the `leads` table. -/
structure LeadRow where
  id : String
  name : String
  contact : String
  source : Option String
  status : String
  priority : Option String
  score : Int
  assignedTo : Option String
  notes : Option String
  tags : String
  nextActionAt : Option String
  linkedCustomerId : Option String
  deriving Repr, DecidableEq

/-- The `Lead` object `leadDB.list` builds from a row: status, priority
and source are normalized, falsy optionals collapse to nothing and the
stored tag string is split on commas with empty pieces dropped. -/
structure LeadObj where
  id : String
  name : String
  contact : String
  source : Option String
  status : String
  priority : String
  score : Int
  assignedTo : Option String
  notes : Option String
  tags : List String
  nextActionAt : Option String
  linkedCustomerId : Option String
  deriving Repr, DecidableEq

def rowToLead (r : LeadRow) : LeadObj :=
  { id := r.id
    name := r.name
    contact := r.contact
    source := normalizeLeadSource r.source
    status := normalizeLeadStatus (some r.status)
    priority := normalizeLeadPriority r.priority
    score := r.score
    assignedTo := optOr r.assignedTo
    notes := optOr r.notes
    tags := (splitComma r.tags).filter (fun t => t ≠ "")
    nextActionAt := optOr r.nextActionAt
    linkedCustomerId := optOr r.linkedCustomerId }

/-- Query filters accepted by `leadDB.list`. -/
structure LeadFilters where
  search : Option String
  status : Option String
  source : Option String
  assignedTo : Option String
  deriving Repr, DecidableEq

def emptyLeadFilters : LeadFilters := ⟨none, none, none, none⟩

/-- Whether one character list starts with another. -/
def charsPrefixOf : List Char → List Char → Bool
  | [], _ => true
  | _ :: _, [] => false
  | a :: as, b :: bs => a = b && charsPrefixOf as bs

/-- Whether one character list occurs inside another. -/
def charsInfixOf (needle : List Char) : List Char → Bool
  | [] => needle.isEmpty
  | b :: rest => charsPrefixOf needle (b :: rest) || charsInfixOf needle rest

/-- SQL `LIKE '%s%'` on a text column. -/
def likeContains (needle : String) (hay : String) : Bool :=
  charsInfixOf needle.data hay.data

/-- The WHERE clause `leadDB.list` builds: each filter adds a conjunct
when it is truthy and not the sentinel `all`. -/
def leadMatches (f : LeadFilters) (r : LeadRow) : Bool :=
  (if isBlank f.search then true
   else likeContains (f.search.getD "") r.name || likeContains (f.search.getD "") r.contact) &&
  (match f.status with
   | none => true
   | some s => if s = "" || s = "all" then true else r.status = s) &&
  (match f.source with
   | none => true
   | some s => if s = "" || s = "all" then true else r.source = some s) &&
  (match f.assignedTo with
   | none => true
   | some s => if s = "" || s = "all" then true else r.assignedTo = some s)

/-- `leadDB.list`: the filtered rows, each normalized into a `Lead`. -/
def leadList (f : LeadFilters) (tbl : List LeadRow) : List LeadObj :=
  (tbl.filter (leadMatches f)).map rowToLead

/-- The `Partial<Lead>` patch accepted by `leadDB.patch`; fields absent
from the request body are `none`. -/
structure LeadPatch where
  name : Option String := none
  contact : Option String := none
  source : Option String := none
  status : Option String := none
  priority : Option String := none
  score : Option Int := none
  assignedTo : Option String := none
  notes : Option String := none
  tags : Option (List String) := none
  nextActionAt : Option String := none
  linkedCustomerId : Option String := none
  deriving Repr, DecidableEq

/-- The row `leadDB.patch` writes back: the spread of the patch over the
stored row, with source, status and priority normalized, falsy optional
columns stored as NULL and an array-valued tag patch rendered by
JavaScript string coercion. -/
def applyLeadPatch (p : LeadPatch) (r : LeadRow) : LeadRow :=
  { id := r.id
    name := match p.name with | some v => v | none => r.name
    contact := match p.contact with | some v => v | none => r.contact
    source := normalizeLeadSource (mergeOpt p.source r.source)
    status := normalizeLeadStatus (some (match p.status with | some v => v | none => r.status))
    priority := some (normalizeLeadPriority (mergeOpt p.priority r.priority))
    score := match p.score with | some v => v | none => r.score
    assignedTo := optOr (mergeOpt p.assignedTo r.assignedTo)
    notes := optOr (mergeOpt p.notes r.notes)
    tags := match p.tags with | some l => joinComma l | none => r.tags
    nextActionAt := optOr (mergeOpt p.nextActionAt r.nextActionAt)
    linkedCustomerId := optOr (mergeOpt p.linkedCustomerId r.linkedCustomerId) }

/-- `leadDB.patch`: `false` when no row has the id, otherwise the merged
and normalized row replaces the stored one. -/
def dbLeadPatch (id : String) (p : LeadPatch) (tbl : List LeadRow) :
    List LeadRow × Bool :=
  match tbl.find? (fun r => r.id = id) with
  | none => (tbl, false)
  | some _ => (tbl.map (fun r => if r.id = id then applyLeadPatch p r else r), true)

/-- `leadDB.add`: INSERT of the normalized lead; a PRIMARY KEY collision
throws out of the function (there is no catch inside `leadDB.add`). -/
def dbLeadAdd (r : LeadRow) (tbl : List LeadRow) : Option (List LeadRow) :=
  if tbl.any (fun x => x.id = r.id) then none else some (tbl ++ [r])

/-- `leadDB.remove`: DELETE, always reported as a success. -/
def dbLeadRemove (id : String) (tbl : List LeadRow) : List LeadRow × Bool :=
  (tbl.filter (fun r => r.id ≠ id), true)

/-- A row of the `lead_history` table. -/
structure LeadHistRow where
  id : String
  leadId : String
  action : String
  note : Option String
  deriving Repr, DecidableEq

/-- `leadDB.addHistory`: INSERT guarded by the PRIMARY KEY; a collision
throws out of the function (no catch inside `leadDB.addHistory`). -/
def dbLeadAddHistory (e : LeadHistRow) (tbl : List LeadHistRow) :
    Option (List LeadHistRow) :=
  if tbl.any (fun x => x.id = e.id) then none else some (tbl ++ [e])

/-! ## The server state and the route handlers -/

/-- All mutable state the route handlers touch: the five tables plus the
set of files written under `uploads/`. -/
structure DBState where
  customers : List CustomerRow
  documents : List DocumentRow
  custHistory : List CustHistRow
  leads : List LeadRow
  leadHistory : List LeadHistRow
  files : List String
  deriving Repr, DecidableEq

/-- The state of a fresh deployment: `createTables` creates empty
tables and nothing has been uploaded. -/
def initState : DBState :=
  { customers := [], documents := [], custHistory := []
    leads := [], leadHistory := [], files := [] }

/-- A `Partial<Customer>` request body; absent JSON keys are `none`. -/
structure CustomerBody where
  id : Option String := none
  regId : Option String := none
  name : Option String := none
  contact : Option String := none
  salesmanId : Option String := none
  status : Option String := none
  familyType : Option String := none
  familyMembers : Option String := none
  joinDate : Option String := none
  expireDate : Option String := none
  membership : Option String := none
  notes : Option String := none
  tags : Option (List String) := none
  deriving Repr, DecidableEq

/-- The normalized `customerData` object the `addCustomer` route (and,
per entry, the bulk route) builds from a body: generated id when the
body has none, trimmed strings, `unassigned` salesman fallback and
today as the default join date. -/
def normalizeBody (b : CustomerBody) (genId : String) (today : String) :
    CustomerObj :=
  { id := strOr b.id genId
    regId := jsTrim (b.regId.getD "")
    name := jsTrim (b.name.getD "")
    contact := jsTrim (b.contact.getD "")
    salesmanId := strOr (some (jsTrim (b.salesmanId.getD "unassigned"))) "unassigned"
    status := b.status.getD "Active"
    familyType := b.familyType.getD "Individual"
    familyMembers := b.familyMembers.getD ""
    joinDate := strOr b.joinDate today
    expireDate := optOr b.expireDate
    membership := some (b.membership.getD "Silver")
    notes := b.notes
    tags := b.tags }

/-- The `addCustomer` route: 400 on a missing required field, 409 when
a stored customer already has the body's regId, then the insert with
201 on success and 500 on a failed insert. -/
def addCustomerRoute (st : DBState) (b : CustomerBody)
    (genId : String) (today : String) : DBState × Resp :=
  if isBlank b.regId || isBlank b.name || isBlank b.contact then
    (st, ⟨400, false⟩)
  else
    match dbGetCustomerByRegId (b.regId.getD "") st.customers with
    | some _ => (st, ⟨409, false⟩)
    | none =>
      let c := normalizeBody b genId today
      match dbAddCustomer c st.customers with
      | (tbl1, true) => ({ st with customers := tbl1 }, ⟨201, true⟩)
      | (_, false) => (st, ⟨500, false⟩)

/-- The validation loop of the bulk `addCustomers` route: bodies missing
a required field produce an error message and are skipped, the others
are normalized (each with its own generated id). -/
def validateBodies (bodies : List CustomerBody) (gen : Nat → String)
    (today : String) (i : Nat) : List CustomerObj × List String :=
  match bodies with
  | [] => ([], [])
  | b :: rest =>
    let v := validateBodies rest gen today (i + 1)
    if isBlank b.regId || isBlank b.name || isBlank b.contact then
      (v.1, ("Customer " ++ toString (i + 1) ++ ": Missing required fields") :: v.2)
    else
      (normalizeBody b (gen i) today :: v.1, v.2)

/-- The bulk `addCustomers` route: 400 on a non-array or empty body or
when no row validates, otherwise the row-by-row bulk insert with the
response echoing the count of inserted rows, the collected error
messages and the overall success flag of the store call. -/
def addCustomersRoute (st : DBState) (bodies : List CustomerBody)
    (gen : Nat → String) (today : String) :
    DBState × Resp × Nat × List String :=
  if bodies.isEmpty then (st, ⟨400, false⟩, 0, [])
  else
    let v := validateBodies bodies gen today 0
    if v.1.isEmpty then (st, ⟨400, false⟩, 0, v.2)
    else
      let res := dbAddCustomers v.1 st.customers
      ({ st with customers := res.1 }, ⟨200, true⟩, res.2.1, res.2.2 ++ v.2)

/-- The merged row `customerDB.updateCustomer` writes: the spread of the
patch over the stored row with the INSERT-style column coercions; `id`
and `regId` are not part of the UPDATE statement. -/
def applyCustomerPatch (p : CustomerBody) (r : CustomerRow) : CustomerRow :=
  { id := r.id
    regId := r.regId
    name := match p.name with | some v => v | none => r.name
    contact := match p.contact with | some v => v | none => r.contact
    salesmanId := match p.salesmanId with | some v => v | none => r.salesmanId
    status := match p.status with | some v => v | none => r.status
    familyType := match p.familyType with | some v => v | none => r.familyType
    familyMembers := match p.familyMembers with | some v => v | none => r.familyMembers
    joinDate := match p.joinDate with | some v => v | none => r.joinDate
    expireDate := optOr (mergeOpt p.expireDate r.expireDate)
    membership := strOr (some (match p.membership with | some v => v | none => r.membership)) "Silver"
    notes := strOr (mergeOpt p.notes (some r.notes)) ""
    tags := match p.tags with | some l => joinComma l | none => r.tags }

/-- `customerDB.updateCustomer`: `false` when the id is not stored or
the UPDATE violates a CHECK constraint, otherwise the merged row
replaces the stored one. -/
def dbUpdateCustomer (id : String) (p : CustomerBody)
    (tbl : List CustomerRow) : List CustomerRow × Bool :=
  match tbl.find? (fun r => r.id = id) with
  | none => (tbl, false)
  | some r =>
    if rowOk (applyCustomerPatch p r) then
      (tbl.map (fun x => if x.id = id then applyCustomerPatch p x else x), true)
    else (tbl, false)

/-- The `updateCustomer` route. -/
def updateCustomerRoute (st : DBState) (id : String) (p : CustomerBody) :
    DBState × Resp :=
  match dbUpdateCustomer id p st.customers with
  | (tbl1, true) => ({ st with customers := tbl1 }, ⟨200, true⟩)
  | (_, false) => (st, ⟨404, false⟩)

/-- The `deleteCustomer` route: the store always reports success, so
the 404 branch of the route is dead and every request is answered with
`success = true`. -/
def deleteCustomerRoute (st : DBState) (id : String) : DBState × Resp :=
  match dbDeleteCustomer id st.customers with
  | (tbl1, true) => ({ st with customers := tbl1 }, ⟨200, true⟩)
  | (_, false) => (st, ⟨404, false⟩)

/-- `customerDB.deleteCustomers` and its route. -/
def deleteCustomersRoute (st : DBState) (ids : List String) :
    DBState × Resp :=
  ({ st with customers :=
      ids.foldl (fun tbl id => tbl.filter (fun r => r.id ≠ id)) st.customers },
   ⟨200, true⟩)

/-- `clearAllCustomers` and its route. -/
def clearAllCustomersRoute (st : DBState) : DBState × Resp :=
  ({ st with customers := [] }, ⟨200, true⟩)

/-- The `uploadCustomerDocument` route: 400 on a missing filename or
payload, 409 when the customer already has a document (checked before
anything is written), otherwise the file is written and the row
inserted, with the file removed again when the insert fails. -/
def uploadCustomerDocumentRoute (st : DBState) (cid : String)
    (filename : Option String) (contentBase64 : Option String)
    (dtype : Option String) (docId : String) (filePath : String) :
    DBState × Resp :=
  if isBlank filename || isBlank contentBase64 then (st, ⟨400, false⟩)
  else if ¬ (dbListDocuments cid st.documents).isEmpty then (st, ⟨409, false⟩)
  else
    let st1 := { st with files := st.files ++ [filePath] }
    let d : DocumentRow :=
      { id := docId, customerId := cid, type := strOr dtype "Other"
        filename := filename.getD "", filepath := filePath }
    match dbAddDocument d st1.documents with
    | (tbl1, true) => ({ st1 with documents := tbl1 }, ⟨201, true⟩)
    | (_, false) =>
      ({ st1 with files := st1.files.filter (fun f => f ≠ filePath) }, ⟨500, false⟩)

/-- The `deleteCustomerDocument` route: the store deletes the row and
the file and always reports success. -/
def deleteCustomerDocumentRoute (st : DBState) (docId : String) :
    DBState × Resp :=
  let filePath := (st.documents.find? (fun d => d.id = docId)).map DocumentRow.filepath
  let st1 := { st with documents := (dbDeleteDocument docId st.documents).1 }
  (match filePath with
   | some fp => { st1 with files := st1.files.filter (fun f => f ≠ fp) }
   | none => st1,
   ⟨200, true⟩)

/-- The `addCustomerHistory` route: 400 without an action, 500 when the
insert fails, 201 otherwise. -/
def addCustomerHistoryRoute (st : DBState) (cid : String)
    (action : Option String) (note : Option String) (entryId : String) :
    DBState × Resp :=
  if isBlank action then (st, ⟨400, false⟩)
  else
    match dbAddCustHistory ⟨entryId, cid, action.getD "", note⟩ st.custHistory with
    | (tbl1, true) => ({ st with custHistory := tbl1 }, ⟨201, true⟩)
    | (_, false) => (st, ⟨500, false⟩)

/-- The request body of the `addLead` route. -/
structure LeadBody where
  id : Option String := none
  name : String := ""
  contact : String := ""
  source : Option String := none
  status : Option String := none
  priority : Option String := none
  score : Option Int := none
  assignedTo : Option String := none
  notes : Option String := none
  tags : Option (List String) := none
  nextActionAt : Option String := none
  linkedCustomerId : Option String := none
  deriving Repr, DecidableEq

/-- The row `leadDB.add` inserts for a body whose id and status the
route has already defaulted. -/
def leadBodyToRow (b : LeadBody) (genId : String) : LeadRow :=
  { id := strOr b.id genId
    name := b.name
    contact := b.contact
    source := normalizeLeadSource b.source
    status := normalizeLeadStatus (some (strOr b.status "New"))
    priority := some (normalizeLeadPriority b.priority)
    score := match b.score with | some v => v | none => 0
    assignedTo := optOr b.assignedTo
    notes := optOr b.notes
    tags := match b.tags with | some l => joinComma l | none => ""
    nextActionAt := optOr b.nextActionAt
    linkedCustomerId := optOr b.linkedCustomerId }

/-- The `addLead` route: a thrown PRIMARY KEY collision becomes a 500
with the table unchanged, otherwise 201. -/
def addLeadRoute (st : DBState) (b : LeadBody) (genId : String) :
    DBState × Resp :=
  match dbLeadAdd (leadBodyToRow b genId) st.leads with
  | some tbl1 => ({ st with leads := tbl1 }, ⟨201, true⟩)
  | none => (st, ⟨500, false⟩)

/-- The `updateLead` route. -/
def updateLeadRoute (st : DBState) (id : String) (p : LeadPatch) :
    DBState × Resp :=
  match dbLeadPatch id p st.leads with
  | (tbl1, true) => ({ st with leads := tbl1 }, ⟨200, true⟩)
  | (_, false) => (st, ⟨404, false⟩)

/-- The `deleteLead` route. -/
def deleteLeadRoute (st : DBState) (id : String) : DBState × Resp :=
  ({ st with leads := (dbLeadRemove id st.leads).1 }, ⟨200, true⟩)

/-- The `addLeadHistory` route: 400 without an action; a thrown PRIMARY
KEY collision becomes a 500, otherwise 201. -/
def addLeadHistoryRoute (st : DBState) (leadId : String)
    (action : Option String) (note : Option String) (entryId : String) :
    DBState × Resp :=
  if isBlank action then (st, ⟨400, false⟩)
  else
    match dbLeadAddHistory ⟨entryId, leadId, action.getD "", note⟩ st.leadHistory with
    | some tbl1 => ({ st with leadHistory := tbl1 }, ⟨201, true⟩)
    | none => (st, ⟨500, false⟩)

/-- The customer object `convertLead` builds from the lead it found:
name, contact, notes and tags are copied from the lead, the status is
Active, membership and family type come from the request body with
their defaults, and id, regId and join date are generated. -/
def convertedCustomer (lead : LeadObj)
    (membership familyType salesmanId : Option String)
    (customerId regId joinDate : String) : CustomerObj :=
  let ft := familyType.getD "Individual"
  { id := customerId
    regId := regId
    name := lead.name
    contact := lead.contact
    salesmanId := salesmanId.getD ""
    status := "Active"
    familyType := ft
    familyMembers := if ft = "Family" then "No details" else "No family"
    joinDate := joinDate
    expireDate := none
    membership := some (membership.getD "Silver")
    notes := some (strOr lead.notes "")
    tags := some lead.tags }

/-- The patch `convertLead` sends to `leadDB.patch`. -/
def convertPatch (customerId : String) : LeadPatch :=
  { status := some "Converted", linkedCustomerId := some customerId }

/-- The `convertLead` route from `leads.ts`: reads the lead through
`leadDB.list`, builds the customer copying name, contact, notes and
tags, inserts it (500 when the insert fails), then marks the lead
Converted with the new customer id linked and appends one history row
to the lead and one to the customer.  A thrown failure of the lead
history insert surfaces as a 500 after the earlier writes; a failure
of the customer history insert is ignored. -/
def convertLeadRoute (st : DBState) (id : String)
    (membership familyType salesmanId : Option String)
    (customerId regId joinDate histIdLead histIdCust : String) :
    DBState × Resp :=
  match (leadList emptyLeadFilters st.leads).find? (fun l => l.id = id) with
  | none => (st, ⟨404, false⟩)
  | some lead =>
    let customer := convertedCustomer lead membership familyType salesmanId
      customerId regId joinDate
    match dbAddCustomer customer st.customers with
    | (_, false) => (st, ⟨500, false⟩)
    | (tbl1, true) =>
      let st1 := { st with customers := tbl1 }
      let st2 := { st1 with
        leads := (dbLeadPatch id (convertPatch customerId) st1.leads).1 }
      match dbLeadAddHistory
          ⟨histIdLead, id, "Converted", some ("Created customer " ++ regId)⟩
          st2.leadHistory with
      | none => (st2, ⟨500, false⟩)
      | some lh1 =>
        let st3 := { st2 with leadHistory := lh1 }
        ({ st3 with custHistory := (dbAddCustHistory
            ⟨histIdCust, customerId, "Created from Lead", some ("Lead " ++ id)⟩
            st3.custHistory).1 }, ⟨201, true⟩)

/-! ## Admin accounts and the admin-management handlers -/

/-- A stored admin account, per the spec data model: id, username,
password hash, role `central` or `admin`, status `active` or
`suspended`, plus the display name the handlers read and write. -/
structure AdminRow where
  id : String
  name : String
  username : String
  passwordHash : String
  role : String
  status : String
  deriving Repr, DecidableEq

/-- The authenticated requester the auth middleware attaches to the
request (`req.admin`); `none` models an unauthenticated request. -/
structure ReqAdmin where
  id : String
  username : String
  name : String
  role : String
  deriving Repr, DecidableEq

/-- The guard `!req.admin || req.admin.role !== 'central'` shared by all
admin-management handlers. -/
def notCentral (requester : Option ReqAdmin) : Bool :=
  match requester with
  | none => true
  | some a => a.role ≠ "central"

/-- Modelled from the spec: `authDB.getAdminById`, whose definition is
not in the sources (only its call sites in `auth.ts` are) — the stored
admin with the given id. -/
def dbGetAdminById (id : String) (tbl : List AdminRow) : Option AdminRow :=
  tbl.find? (fun a => a.id = id)

/-- Modelled from the spec: `authDB.setAdminStatus`, not in the sources
— sets the status column (`active` or `suspended`) of the admin with
the given id and reports success. -/
def dbSetAdminStatus (id : String) (status : String) (tbl : List AdminRow) :
    List AdminRow × Bool :=
  (tbl.map (fun a => if a.id = id then { a with status := status } else a), true)

/-- Modelled from the spec: `authDB.deleteAdmin`, not in the sources —
removes the admin row with the given id. -/
def dbDeleteAdmin (id : String) (tbl : List AdminRow) :
    List AdminRow × Bool :=
  (tbl.filter (fun a => a.id ≠ id), true)

/-- Modelled from the spec: `authDB.updateAdmin`, not in the sources —
overwrites whichever of name, username and password the patch carries
(password stored through the hash function). -/
def dbUpdateAdmin (id : String) (name username password : Option String)
    (hashFn : String → String) (tbl : List AdminRow) :
    List AdminRow × Bool :=
  (tbl.map (fun a =>
    if a.id = id then
      { a with
        name := strOr name a.name
        username := strOr username a.username
        passwordHash := match optOr password with
          | some pw => hashFn pw
          | none => a.passwordHash }
    else a), true)

/-- Modelled from the spec: the four-argument `authDB.createAdmin`, not
in the sources — inserts a new admin unless the UNIQUE username is
taken. -/
def dbCreateAdmin (name username password role : String) (newId : String)
    (hashFn : String → String) (tbl : List AdminRow) :
    List AdminRow × Bool :=
  if tbl.any (fun a => a.username = username) then (tbl, false)
  else (tbl ++ [⟨newId, name, username, hashFn password, role, "active"⟩], true)

/-- `handleViewAdmins`: central-only; the payload is the full admin list
(and nothing is read on the 403 path). -/
def handleViewAdmins (requester : Option ReqAdmin) (tbl : List AdminRow) :
    Resp × Option (List AdminRow) :=
  if notCentral requester then (⟨403, false⟩, none)
  else (⟨200, true⟩, some tbl)

/-- `handleCreateAdmin`: central-only; 400 on missing fields or a failed
insert, 200 otherwise; a requested role other than `central` becomes
`admin`. -/
def handleCreateAdmin (requester : Option ReqAdmin)
    (name username password role : Option String) (newId : String)
    (hashFn : String → String) (tbl : List AdminRow) :
    List AdminRow × Resp :=
  if notCentral requester then (tbl, ⟨403, false⟩)
  else if isBlank name || isBlank username || isBlank password then
    (tbl, ⟨400, false⟩)
  else
    match dbCreateAdmin (name.getD "") (username.getD "") (password.getD "")
        (if role = some "central" then "central" else "admin") newId hashFn tbl with
    | (tbl1, true) => (tbl1, ⟨200, true⟩)
    | (_, false) => (tbl, ⟨400, false⟩)

/-- `handleSuspendAdmin`: central-only; 404 on an unknown target, 400
when the target is the central admin, otherwise the status flips to
`suspended`. -/
def handleSuspendAdmin (requester : Option ReqAdmin) (id : String)
    (tbl : List AdminRow) : List AdminRow × Resp :=
  if notCentral requester then (tbl, ⟨403, false⟩)
  else
    match dbGetAdminById id tbl with
    | none => (tbl, ⟨404, false⟩)
    | some target =>
      if target.role = "central" then (tbl, ⟨400, false⟩)
      else
        match dbSetAdminStatus id "suspended" tbl with
        | (tbl1, ok) => (tbl1, ⟨200, ok⟩)

/-- `handleUnsuspendAdmin`: central-only; 404 on an unknown target,
otherwise the status flips to `active` (no central check here). -/
def handleUnsuspendAdmin (requester : Option ReqAdmin) (id : String)
    (tbl : List AdminRow) : List AdminRow × Resp :=
  if notCentral requester then (tbl, ⟨403, false⟩)
  else
    match dbGetAdminById id tbl with
    | none => (tbl, ⟨404, false⟩)
    | some _ =>
      match dbSetAdminStatus id "active" tbl with
      | (tbl1, ok) => (tbl1, ⟨200, ok⟩)

/-- `handleDeleteAdmin`: central-only; 404 on an unknown target, 400
when the target is the central admin, otherwise the row is removed. -/
def handleDeleteAdmin (requester : Option ReqAdmin) (id : String)
    (tbl : List AdminRow) : List AdminRow × Resp :=
  if notCentral requester then (tbl, ⟨403, false⟩)
  else
    match dbGetAdminById id tbl with
    | none => (tbl, ⟨404, false⟩)
    | some target =>
      if target.role = "central" then (tbl, ⟨400, false⟩)
      else
        match dbDeleteAdmin id tbl with
        | (tbl1, ok) => (tbl1, ⟨200, ok⟩)

/-- `handleUpdateAdmin`: central-only; 404 on an unknown target; for a
central target a truthy username or password is refused with 400, but
any other patch — including a name change — falls through to
`authDB.updateAdmin`. -/
def handleUpdateAdmin (requester : Option ReqAdmin) (id : String)
    (name username password : Option String) (hashFn : String → String)
    (tbl : List AdminRow) : List AdminRow × Resp :=
  if notCentral requester then (tbl, ⟨403, false⟩)
  else
    match dbGetAdminById id tbl with
    | none => (tbl, ⟨404, false⟩)
    | some target =>
      if target.role = "central" &&
          (¬ isBlank username || ¬ isBlank password || ¬ isBlank name) &&
          (¬ isBlank username || ¬ isBlank password) then
        (tbl, ⟨400, false⟩)
      else
        match dbUpdateAdmin id name username password hashFn tbl with
        | (tbl1, ok) => (tbl1, ⟨200, ok⟩)

/-! ## Salesman aggregation (`Salesmen.tsx`) -/

/-- The per-salesman counters accumulated by the `reduce` over the
customer list. -/
structure Metrics where
  totalCustomers : Nat
  activeCustomers : Nat
  inactiveCustomers : Nat
  familyCustomers : Nat
  individualCustomers : Nat
  deriving Repr, DecidableEq

def emptyMetrics : Metrics := ⟨0, 0, 0, 0, 0⟩

/-- One step of the accumulation: total always, active or inactive by
status, family or individual by family type. -/
def bumpMetrics (c : CustomerRow) (m : Metrics) : Metrics :=
  { totalCustomers := m.totalCustomers + 1
    activeCustomers :=
      if c.status = "Active" then m.activeCustomers + 1 else m.activeCustomers
    inactiveCustomers :=
      if c.status = "Active" then m.inactiveCustomers else m.inactiveCustomers + 1
    familyCustomers :=
      if c.familyType = "Family" then m.familyCustomers + 1 else m.familyCustomers
    individualCustomers :=
      if c.familyType = "Family" then m.individualCustomers else m.individualCustomers + 1 }

/-- The grouping key: the trimmed salesman id, `Unassigned` when it is
empty. -/
def salesmanKey (c : CustomerRow) : String :=
  strOr (some (jsTrim c.salesmanId)) "Unassigned"

/-- Record one customer under its key, keeping first-seen key order as
a JavaScript object does. -/
def addToGroups (key : String) (c : CustomerRow) :
    List (String × Metrics) → List (String × Metrics)
  | [] => [(key, bumpMetrics c emptyMetrics)]
  | (k, m) :: rest =>
    if k = key then (k, bumpMetrics c m) :: rest
    else (k, m) :: addToGroups key c rest

/-- The `bySalesman` reduce of `SalesmenPage`. -/
def bySalesman (customers : List CustomerRow) : List (String × Metrics) :=
  customers.foldl (fun acc c => addToGroups (salesmanKey c) c acc) []

def BASE_SALARY : ℚ := 15000
def ACTIVE_INCENTIVE : ℚ := 500
def FAMILY_INCENTIVE : ℚ := 250
def INDIVIDUAL_INCENTIVE : ℚ := 150
def CONVERSION_MULTIPLIER : ℚ := 3000

/-- `calculateSalary`: base pay plus the three per-category incentives
plus the conversion bonus. -/
def calculateSalary (activeCustomers familyCustomers individualCustomers : Nat)
    (conversionRate : ℚ) : ℚ :=
  BASE_SALARY +
    activeCustomers * ACTIVE_INCENTIVE +
    familyCustomers * FAMILY_INCENTIVE +
    individualCustomers * INDIVIDUAL_INCENTIVE +
    conversionRate * CONVERSION_MULTIPLIER

/-- `calculatePerformance`: zero without customers, otherwise the
clamped sum of the volume, activity, mix and conversion scores. -/
def calculatePerformance (m : Metrics) (conversionRate : ℚ) : ℚ :=
  if m.totalCustomers = 0 then 0
  else
    let volumeScore : ℚ := m.totalCustomers * (1.2 : ℚ)
    let activityScore : ℚ := m.activeCustomers * (1.5 : ℚ) - m.inactiveCustomers * (0.6 : ℚ)
    let mixScore : ℚ := m.familyCustomers * (0.8 : ℚ) + m.individualCustomers * (0.6 : ℚ)
    let conversionScore : ℚ := conversionRate * 60
    max (volumeScore + activityScore + mixScore + conversionScore) 0

/-- One aggregate row of the salesmen page. -/
structure Aggregate where
  id : String
  totalCustomers : Nat
  activeCustomers : Nat
  inactiveCustomers : Nat
  familyCustomers : Nat
  individualCustomers : Nat
  conversionRate : ℚ
  salary : ℚ
  performanceScore : ℚ
  deriving Repr, DecidableEq

/-- The aggregate built from one key and its metrics: the conversion
rate is active over total (zero for an empty pool), salary and
performance come from the two formulas. -/
def mkAggregate (km : String × Metrics) : Aggregate :=
  let m := km.2
  let conversionRate : ℚ :=
    if m.totalCustomers = 0 then 0
    else (m.activeCustomers : ℚ) / (m.totalCustomers : ℚ)
  { id := km.1
    totalCustomers := m.totalCustomers
    activeCustomers := m.activeCustomers
    inactiveCustomers := m.inactiveCustomers
    familyCustomers := m.familyCustomers
    individualCustomers := m.individualCustomers
    conversionRate := conversionRate
    salary := calculateSalary m.activeCustomers m.familyCustomers
      m.individualCustomers conversionRate
    performanceScore := calculatePerformance m conversionRate }

/-- The sort comparator: performance descending, total customers
descending on ties. -/
def aggLe (a b : Aggregate) : Bool :=
  if b.performanceScore = a.performanceScore then
    decide (b.totalCustomers ≤ a.totalCustomers)
  else decide (b.performanceScore ≤ a.performanceScore)

/-- The `aggregates` value of `SalesmenPage`: grouped, mapped, sorted. -/
def salesmenAggregates (customers : List CustomerRow) : List Aggregate :=
  (((bySalesman customers).map mkAggregate)).mergeSort aggLe

/-- `isUnassignedId` from `Salesmen.tsx`. -/
def isUnassignedId (id : String) : Bool :=
  jsLower (jsTrim id) = "unassigned"

/-- `assignedTotal`: customers across all non-unassigned aggregates. -/
def assignedTotal (customers : List CustomerRow) : Nat :=
  ((salesmenAggregates customers).filter (fun a => ¬ isUnassignedId a.id)).foldl
    (fun s a => s + a.totalCustomers) 0

/-- `unassignedTotal`: customers in the unassigned aggregates. -/
def unassignedTotal (customers : List CustomerRow) : Nat :=
  ((salesmenAggregates customers).filter (fun a => isUnassignedId a.id)).foldl
    (fun s a => s + a.totalCustomers) 0

/-- The performance percentage the salesmen table and the bar-chart
tooltip render for one aggregate: a fixed 100 for a nonempty
unassigned pool, otherwise the aggregate's share of the assigned pool
scaled to 100. -/
def displayPerformancePercent (item : Aggregate)
    (assigned unassigned : Nat) : ℚ :=
  if isUnassignedId item.id then (if 0 < unassigned then 100 else 0)
  else if 0 < assigned then
    (item.totalCustomers : ℚ) / (assigned : ℚ) * 100
  else 0

end CRM

/-! Quick sanity theorems used while developing; they also serve as
regression checks that the embedding computes. -/

example : CRM.normalizeLeadStatus (some "  converted ") = "Converted" := by decide
example : CRM.normalizeLeadStatus none = "New" := by decide
example : CRM.normalizeLeadPriority (some "HIGH") = "High" := by decide
example : CRM.normalizeLeadPriority (some "") = "Medium" := by decide
example : CRM.normalizeLeadSource (some "web") = some "Web" := by decide
example : CRM.normalizeLeadSource (some "abc") = some "Other" := by decide

namespace CRM

/-! ## Sample data for concrete witnesses -/

/-- A well-formed stored customer row used by concrete witnesses. -/
def wRow : CustomerRow :=
  { id := "c1", regId := "R1", name := "Alice", contact := "123"
    salesmanId := "s1", status := "Active", familyType := "Individual"
    familyMembers := "", joinDate := "2024-01-01", expireDate := none
    membership := "Silver", notes := "", tags := "" }

/-- A one-customer database state used by concrete witnesses. -/
def wState : DBState := { initState with customers := [wRow] }

/-- A request body that repeats the stored registration id. -/
def wBodyDup : CustomerBody :=
  { regId := some "R1", name := some "Bob", contact := some "456" }

/-- A request body with a fresh registration id. -/
def wBodyNew : CustomerBody :=
  { regId := some "R2", name := some "Bob", contact := some "456" }

/-! ## C2: unique registration ids in the add-customer route -/

/-- C2: for a request carrying the required fields, a regId matching a
stored customer is answered 409 with `success = false` and the table
unchanged, while a fresh regId (whose normalized row the database
accepts) inserts exactly one row and is answered 201. -/
theorem addCustomer_unique_regId
    (st : DBState) (b : CustomerBody) (genId today : String)
    (h1 : isBlank b.regId = false) (h2 : isBlank b.name = false)
    (h3 : isBlank b.contact = false) :
    ((∃ c ∈ st.customers, c.regId = b.regId.getD "") →
      addCustomerRoute st b genId today = (st, ⟨409, false⟩)) ∧
    ((∀ c ∈ st.customers, c.regId ≠ b.regId.getD "") →
      insertOk (customerToRow (normalizeBody b genId today)) st.customers = true →
      addCustomerRoute st b genId today =
        ({ st with customers :=
            st.customers ++ [customerToRow (normalizeBody b genId today)] },
         ⟨201, true⟩)) := by
  constructor
  · rintro ⟨c, hc, hceq⟩
    have hsome : (dbGetCustomerByRegId (b.regId.getD "") st.customers).isSome := by
      unfold dbGetCustomerByRegId
      exact List.find?_isSome.mpr ⟨c, hc, by simp [hceq]⟩
    obtain ⟨r, hr⟩ := Option.isSome_iff_exists.mp hsome
    simp [addCustomerRoute, h1, h2, h3, hr]
  · intro hall hins
    have hnone : dbGetCustomerByRegId (b.regId.getD "") st.customers = none := by
      unfold dbGetCustomerByRegId
      exact List.find?_eq_none.mpr (fun x hx => by simp [hall x hx])
    simp [addCustomerRoute, h1, h2, h3, hnone, dbAddCustomer, hins]

/-- Concrete instantiation of the C2 theorem: the duplicate body is
refused and the fresh body is inserted. -/
theorem addCustomer_unique_regId_witness :
    addCustomerRoute wState wBodyDup "g1" "2024-02-02" = (wState, ⟨409, false⟩) ∧
    addCustomerRoute wState wBodyNew "g1" "2024-02-02" =
      ({ wState with customers :=
          wState.customers ++ [customerToRow (normalizeBody wBodyNew "g1" "2024-02-02")] },
       ⟨201, true⟩) := by
  constructor
  · exact (addCustomer_unique_regId wState wBodyDup "g1" "2024-02-02"
      (by decide) (by decide) (by decide)).1 ⟨wRow, by decide, by decide⟩
  · exact (addCustomer_unique_regId wState wBodyNew "g1" "2024-02-02"
      (by decide) (by decide) (by decide)).2 (by decide) (by decide)

/-! ## C9: deleting by a non-existent id still succeeds -/

/-- C9: `customerDB.deleteCustomer` reports success for every id, so
the delete route answers `success = true` whether or not a row
matched; a non-matching id leaves the state unchanged, and the 404
branch of the route is unreachable. -/
theorem deleteCustomer_always_success (st : DBState) (id : String) :
    (dbDeleteCustomer id st.customers).2 = true ∧
    (deleteCustomerRoute st id).2 = ⟨200, true⟩ ∧
    ((∀ c ∈ st.customers, c.id ≠ id) → deleteCustomerRoute st id = (st, ⟨200, true⟩)) := by
  refine ⟨rfl, rfl, fun hall => ?_⟩
  have hfix : st.customers.filter (fun r => !decide (r.id = id)) = st.customers :=
    List.filter_eq_self.mpr (fun a ha => by simp [hall a ha])
  simp [deleteCustomerRoute, dbDeleteCustomer, hfix]

/-- Concrete instantiation of the C9 theorem at an id no stored row
has. -/
theorem deleteCustomer_always_success_witness :
    deleteCustomerRoute wState "nope" = (wState, ⟨200, true⟩) :=
  (deleteCustomer_always_success wState "nope").2.2 (by decide)

end CRM

namespace CRM

/-! ## C8: bulk import keeps successful rows on mid-batch failure -/

/-- Row-by-row characterization of `customerDB.addCustomers`: the final
table is the input table with the successfully inserted rows appended,
`added` counts exactly those rows, and together with the error list
every input row is accounted for. -/
theorem dbAddCustomers_partial (cs : List CustomerObj) :
    ∀ tbl : List CustomerRow,
      (∃ kept : List CustomerRow,
        (dbAddCustomers cs tbl).1 = tbl ++ kept ∧
        (dbAddCustomers cs tbl).2.1 = kept.length) ∧
      (dbAddCustomers cs tbl).2.1 + (dbAddCustomers cs tbl).2.2.length = cs.length := by
  induction cs with
  | nil =>
    intro tbl
    exact ⟨⟨[], by simp [dbAddCustomers], by simp [dbAddCustomers]⟩, by simp [dbAddCustomers]⟩
  | cons c rest ih =>
    intro tbl
    by_cases h : insertOk (customerToRow c) tbl
    · obtain ⟨⟨kept, h1, h2⟩, h3⟩ := ih (tbl ++ [customerToRow c])
      refine ⟨⟨customerToRow c :: kept, ?_, ?_⟩, ?_⟩
      · simpa [dbAddCustomers, h, List.append_assoc] using h1
      · simp [dbAddCustomers, h, h2]
      · simp only [dbAddCustomers, h, if_true, List.length_cons]
        omega
    · obtain ⟨⟨kept, h1, h2⟩, h3⟩ := ih tbl
      refine ⟨⟨kept, ?_, ?_⟩, ?_⟩
      · simpa [dbAddCustomers, h] using h1
      · simp [dbAddCustomers, h, h2]
      · simp only [dbAddCustomers, h, if_false, List.length_cons, Bool.false_eq_true]
        omega

/-- C8: when at least one body of the batch validates, the bulk route
answers 200 with overall success, the rows whose inserts succeeded are
appended to the table and stay there regardless of other rows failing,
the reported `added` counts exactly those rows, and there is one store
error message per failed row (the response error list is the store
errors followed by the validation errors). -/
theorem bulkImport_partial_failure (st : DBState) (bodies : List CustomerBody)
    (gen : Nat → String) (today : String)
    (hne : ((validateBodies bodies gen today 0).1).isEmpty = false) :
    (addCustomersRoute st bodies gen today).2.1 = ⟨200, true⟩ ∧
    (∃ kept : List CustomerRow,
      (addCustomersRoute st bodies gen today).1.customers = st.customers ++ kept ∧
      (addCustomersRoute st bodies gen today).2.2.1 = kept.length) ∧
    (addCustomersRoute st bodies gen today).2.2.1 +
      (dbAddCustomers (validateBodies bodies gen today 0).1 st.customers).2.2.length
        = (validateBodies bodies gen today 0).1.length ∧
    (addCustomersRoute st bodies gen today).2.2.2 =
      (dbAddCustomers (validateBodies bodies gen today 0).1 st.customers).2.2 ++
        (validateBodies bodies gen today 0).2 := by
  have hbodies : bodies.isEmpty = false := by
    cases bodies with
    | nil => simp [validateBodies] at hne
    | cons b r => rfl
  obtain ⟨⟨kept, h1, h2⟩, h3⟩ :=
    dbAddCustomers_partial (validateBodies bodies gen today 0).1 st.customers
  refine ⟨?_, ⟨kept, ?_, ?_⟩, ?_, ?_⟩
  · simp [addCustomersRoute, hbodies, hne]
  · simp [addCustomersRoute, hbodies, hne, h1]
  · simp [addCustomersRoute, hbodies, hne, h2]
  · simpa [addCustomersRoute, hbodies, hne] using h3
  · simp [addCustomersRoute, hbodies, hne]

/-- Concrete instantiation of the C8 theorem: a two-row batch whose
second row repeats the stored regId keeps the first row and reports
one error. -/
theorem bulkImport_partial_failure_witness :
    ((validateBodies [wBodyNew, wBodyDup] (fun i => toString i) "2024-02-02" 0).1).isEmpty = false ∧
    (addCustomersRoute wState [wBodyNew, wBodyDup] (fun i => toString i) "2024-02-02").2.1
      = ⟨200, true⟩ := by
  constructor
  · decide
  · exact (bulkImport_partial_failure wState [wBodyNew, wBodyDup]
      (fun i => toString i) "2024-02-02" (by decide)).1

end CRM

namespace CRM

/-! ## C10: leads come back with enum status and priority -/

/-- C10: both normalizers always land in their enums — so every lead
`leadDB.list` returns has a status among New, Contacted, Qualified,
Converted, Lost and a priority among Low, Medium, High — the status
falls back to New when nothing matches case-insensitively, and the
priority falls back to Medium for null, empty, or unrecognized
values. -/
theorem leadList_enums :
    (∀ v : Option String, normalizeLeadStatus v ∈ LEAD_STATUSES) ∧
    (∀ v : Option String, normalizeLeadPriority v ∈ LEAD_PRIORITIES) ∧
    (∀ (f : LeadFilters) (tbl : List LeadRow), ∀ l ∈ leadList f tbl,
      l.status ∈ LEAD_STATUSES ∧ l.priority ∈ LEAD_PRIORITIES) ∧
    (∀ v : Option String,
      (∀ s ∈ LEAD_STATUSES, jsLower s ≠ jsLower (jsTrim (v.getD ""))) →
      normalizeLeadStatus v = "New") ∧
    normalizeLeadPriority none = "Medium" ∧
    normalizeLeadPriority (some "") = "Medium" ∧
    (∀ s : String, s ≠ "" →
      (∀ p ∈ LEAD_PRIORITIES, jsLower p ≠ jsLower (jsTrim s)) →
      normalizeLeadPriority (some s) = "Medium") := by
  have hstat : ∀ v : Option String, normalizeLeadStatus v ∈ LEAD_STATUSES := by
    intro v
    unfold normalizeLeadStatus
    cases hf : LEAD_STATUSES.find?
        (fun s => jsLower s = jsLower (jsTrim (v.getD ""))) with
    | none => simp [LEAD_STATUSES]
    | some s => simpa using List.mem_of_find?_eq_some hf
  have hprio : ∀ v : Option String, normalizeLeadPriority v ∈ LEAD_PRIORITIES := by
    intro v
    unfold normalizeLeadPriority
    cases v with
    | none => simp [LEAD_PRIORITIES]
    | some s =>
      by_cases hs : s = ""
      · simp [hs, LEAD_PRIORITIES]
      · simp only [hs, if_false]
        cases hf : LEAD_PRIORITIES.find?
            (fun p => jsLower p = jsLower (jsTrim s)) with
        | none => simp [LEAD_PRIORITIES]
        | some p => simpa using List.mem_of_find?_eq_some hf
  refine ⟨hstat, hprio, ?_, ?_, rfl, rfl, ?_⟩
  · intro f tbl l hl
    simp only [leadList, List.mem_map] at hl
    obtain ⟨r, -, hr⟩ := hl
    subst hr
    exact ⟨hstat (some r.status), hprio r.priority⟩
  · intro v hv
    unfold normalizeLeadStatus
    rw [List.find?_eq_none.mpr (fun s hs => by simp [hv s hs])]
    rfl
  · intro s hs hall
    unfold normalizeLeadPriority
    simp only [hs, if_false]
    rw [List.find?_eq_none.mpr (fun p hp => by simp [hall p hp])]
    rfl

/-- Concrete instantiation of the C10 theorem: an unrecognized stored
status and priority come back as New and Medium, and a listed lead
carries enum values. -/
theorem leadList_enums_witness :
    normalizeLeadStatus (some "bogus") = "New" ∧
    normalizeLeadPriority (some "urgent") = "Medium" ∧
    (rowToLead ⟨"L1", "Lia", "999", none, "qualified", some "weird", 0,
        none, none, "", none, none⟩).status ∈ LEAD_STATUSES := by
  refine ⟨leadList_enums.2.2.2.1 (some "bogus") (by decide),
    leadList_enums.2.2.2.2.2.2 "urgent" (by decide) (by decide), ?_⟩
  have := (leadList_enums.2.2.1 emptyLeadFilters
    [⟨"L1", "Lia", "999", none, "qualified", some "weird", 0, none, none, "", none, none⟩]
    (rowToLead ⟨"L1", "Lia", "999", none, "qualified", some "weird", 0, none, none, "", none, none⟩)
    (by decide)).1
  exact this

end CRM

namespace CRM

/-! ## C1: conversion creates one customer and two history rows -/

theorem leadMatches_empty (r : LeadRow) : leadMatches emptyLeadFilters r = true := rfl

theorem leadList_empty_filters (tbl : List LeadRow) :
    leadList emptyLeadFilters tbl = tbl.map rowToLead := by
  unfold leadList
  rw [List.filter_eq_self.mpr (fun a _ => leadMatches_empty a)]

/-- A lead found through `leadDB.list` comes from a stored row with the
same id. -/
theorem leadList_find_row (tbl : List LeadRow) (id : String) (lead : LeadObj)
    (h : (leadList emptyLeadFilters tbl).find? (fun l => l.id = id) = some lead) :
    ∃ r0, tbl.find? (fun r => r.id = id) = some r0 ∧ rowToLead r0 = lead := by
  rw [leadList_empty_filters, List.find?_map] at h
  obtain ⟨r0, hr0, hmap⟩ := Option.map_eq_some'.mp h
  exact ⟨r0, hr0, hmap⟩

/-- C1: converting an existing lead — when the generated customer row
is accepted by the database and the generated history ids are fresh —
appends exactly one customer row (copying the lead's name, contact,
notes and tags), rewrites that lead's row to status Converted with the
new customer id linked, and appends exactly one row to the lead
history and one to the customer history, answering 201. -/
theorem convertLead_one_customer_two_history
    (st : DBState) (id : String)
    (membership familyType salesmanId : Option String)
    (customerId regId joinDate histIdLead histIdCust : String) (lead : LeadObj)
    (hfind : (leadList emptyLeadFilters st.leads).find? (fun l => l.id = id) = some lead)
    (hins : insertOk (customerToRow (convertedCustomer lead membership familyType
      salesmanId customerId regId joinDate)) st.customers = true)
    (hlh : st.leadHistory.any (fun x => x.id = histIdLead) = false)
    (hch : st.custHistory.any (fun x => x.id = histIdCust) = false)
    (hcid : customerId ≠ "") :
    convertLeadRoute st id membership familyType salesmanId customerId regId
        joinDate histIdLead histIdCust =
      ({ st with
          customers := st.customers ++ [customerToRow (convertedCustomer lead
            membership familyType salesmanId customerId regId joinDate)]
          leads := st.leads.map (fun r =>
            if r.id = id then applyLeadPatch (convertPatch customerId) r else r)
          leadHistory := st.leadHistory ++
            [⟨histIdLead, id, "Converted", some ("Created customer " ++ regId)⟩]
          custHistory := st.custHistory ++
            [⟨histIdCust, customerId, "Created from Lead", some ("Lead " ++ id)⟩] },
       ⟨201, true⟩) ∧
    (customerToRow (convertedCustomer lead membership familyType salesmanId
      customerId regId joinDate)).name = lead.name ∧
    (customerToRow (convertedCustomer lead membership familyType salesmanId
      customerId regId joinDate)).contact = lead.contact ∧
    (customerToRow (convertedCustomer lead membership familyType salesmanId
      customerId regId joinDate)).notes = strOr lead.notes "" ∧
    (customerToRow (convertedCustomer lead membership familyType salesmanId
      customerId regId joinDate)).tags = joinComma lead.tags ∧
    (∀ r : LeadRow,
      (applyLeadPatch (convertPatch customerId) r).status = "Converted" ∧
      (applyLeadPatch (convertPatch customerId) r).linkedCustomerId = some customerId) := by
  obtain ⟨r0, hr0, -⟩ := leadList_find_row st.leads id lead hfind
  refine ⟨?_, rfl, rfl, ?_, rfl, ?_⟩
  · have hadd : dbAddCustomer (convertedCustomer lead membership familyType
        salesmanId customerId regId joinDate) st.customers =
        (st.customers ++ [customerToRow (convertedCustomer lead membership
          familyType salesmanId customerId regId joinDate)], true) := by
      simp [dbAddCustomer, hins]
    have hpatch : dbLeadPatch id (convertPatch customerId) st.leads =
        (st.leads.map (fun r =>
          if r.id = id then applyLeadPatch (convertPatch customerId) r else r), true) := by
      unfold dbLeadPatch
      rw [hr0]
    have hlad : dbLeadAddHistory
        ⟨histIdLead, id, "Converted", some ("Created customer " ++ regId)⟩
        st.leadHistory =
        some (st.leadHistory ++
          [⟨histIdLead, id, "Converted", some ("Created customer " ++ regId)⟩]) := by
      unfold dbLeadAddHistory
      rw [hlh]
      simp
    have hcad : dbAddCustHistory
        ⟨histIdCust, customerId, "Created from Lead", some ("Lead " ++ id)⟩
        st.custHistory =
        (st.custHistory ++
          [⟨histIdCust, customerId, "Created from Lead", some ("Lead " ++ id)⟩], true) := by
      unfold dbAddCustHistory
      rw [hch]
      simp
    unfold convertLeadRoute
    rw [hfind]
    simp only [hadd, hpatch, hlad, hcad]
  · cases hn : lead.notes with
    | none => simp [customerToRow, convertedCustomer, strOr, hn]
    | some s =>
      by_cases hs : s = "" <;>
        simp [customerToRow, convertedCustomer, strOr, hn, hs]
  · intro r
    refine ⟨?_, ?_⟩
    · show normalizeLeadStatus (some "Converted") = "Converted"
      decide
    · simp [applyLeadPatch, convertPatch, mergeOpt, optOr, hcid]

/-- A stored lead row used by concrete witnesses. -/
def wLeadRow : LeadRow :=
  { id := "L1", name := "Lia", contact := "999", source := none
    status := "New", priority := none, score := 0, assignedTo := none
    notes := none, tags := "", nextActionAt := none, linkedCustomerId := none }

/-- A state holding that one lead. -/
def wLeadState : DBState := { initState with leads := [wLeadRow] }

/-- Concrete instantiation of the C1 theorem on a one-lead state. -/
theorem convertLead_one_customer_two_history_witness :
    convertLeadRoute wLeadState "L1" none none none "cust1" "REG9"
        "2024-02-02" "h1" "h2" =
      ({ wLeadState with
          customers := wLeadState.customers ++ [customerToRow (convertedCustomer
            (rowToLead wLeadRow) none none none "cust1" "REG9" "2024-02-02")]
          leads := wLeadState.leads.map (fun r =>
            if r.id = "L1" then applyLeadPatch (convertPatch "cust1") r else r)
          leadHistory := wLeadState.leadHistory ++
            [⟨"h1", "L1", "Converted", some ("Created customer " ++ "REG9")⟩]
          custHistory := wLeadState.custHistory ++
            [⟨"h2", "cust1", "Created from Lead", some ("Lead " ++ "L1")⟩] },
       ⟨201, true⟩) :=
  (convertLead_one_customer_two_history wLeadState "L1" none none none
    "cust1" "REG9" "2024-02-02" "h1" "h2" (rowToLead wLeadRow)
    (by decide) (by decide) (by decide) (by decide) (by decide)).1

end CRM

namespace CRM

/-! ## C3: at most one document per customer, an invariant of the API -/

/-- Every mutating API route of the server, as a transition system
started from a fresh deployment. -/
inductive Reachable : DBState → Prop
  | init : Reachable initState
  | stepAddCustomer (st : DBState) (b : CustomerBody) (genId today : String)
      (h : Reachable st) : Reachable (addCustomerRoute st b genId today).1
  | stepAddCustomers (st : DBState) (bodies : List CustomerBody)
      (gen : Nat → String) (today : String) (h : Reachable st) :
      Reachable (addCustomersRoute st bodies gen today).1
  | stepUpdateCustomer (st : DBState) (id : String) (p : CustomerBody)
      (h : Reachable st) : Reachable (updateCustomerRoute st id p).1
  | stepDeleteCustomer (st : DBState) (id : String) (h : Reachable st) :
      Reachable (deleteCustomerRoute st id).1
  | stepDeleteCustomers (st : DBState) (ids : List String) (h : Reachable st) :
      Reachable (deleteCustomersRoute st ids).1
  | stepClearAll (st : DBState) (h : Reachable st) :
      Reachable (clearAllCustomersRoute st).1
  | stepUploadDocument (st : DBState) (cid : String)
      (filename contentBase64 dtype : Option String) (docId filePath : String)
      (h : Reachable st) :
      Reachable (uploadCustomerDocumentRoute st cid filename contentBase64
        dtype docId filePath).1
  | stepDeleteDocument (st : DBState) (docId : String) (h : Reachable st) :
      Reachable (deleteCustomerDocumentRoute st docId).1
  | stepAddCustomerHistory (st : DBState) (cid : String)
      (action note : Option String) (entryId : String) (h : Reachable st) :
      Reachable (addCustomerHistoryRoute st cid action note entryId).1
  | stepAddLead (st : DBState) (b : LeadBody) (genId : String)
      (h : Reachable st) : Reachable (addLeadRoute st b genId).1
  | stepUpdateLead (st : DBState) (id : String) (p : LeadPatch)
      (h : Reachable st) : Reachable (updateLeadRoute st id p).1
  | stepDeleteLead (st : DBState) (id : String) (h : Reachable st) :
      Reachable (deleteLeadRoute st id).1
  | stepAddLeadHistory (st : DBState) (leadId : String)
      (action note : Option String) (entryId : String) (h : Reachable st) :
      Reachable (addLeadHistoryRoute st leadId action note entryId).1
  | stepConvertLead (st : DBState) (id : String)
      (membership familyType salesmanId : Option String)
      (customerId regId joinDate histIdLead histIdCust : String)
      (h : Reachable st) :
      Reachable (convertLeadRoute st id membership familyType salesmanId
        customerId regId joinDate histIdLead histIdCust).1

theorem addCustomerRoute_docs (st : DBState) (b : CustomerBody)
    (g t : String) : (addCustomerRoute st b g t).1.documents = st.documents := by
  unfold addCustomerRoute
  try dsimp only
  repeat' split
  all_goals rfl

theorem addCustomersRoute_docs (st : DBState) (bodies : List CustomerBody)
    (gen : Nat → String) (today : String) :
    (addCustomersRoute st bodies gen today).1.documents = st.documents := by
  unfold addCustomersRoute
  try dsimp only
  repeat' split
  all_goals rfl

theorem updateCustomerRoute_docs (st : DBState) (id : String)
    (p : CustomerBody) : (updateCustomerRoute st id p).1.documents = st.documents := by
  unfold updateCustomerRoute
  repeat' split
  all_goals rfl

theorem deleteCustomerRoute_docs (st : DBState) (id : String) :
    (deleteCustomerRoute st id).1.documents = st.documents := by
  unfold deleteCustomerRoute
  try dsimp only
  repeat' split
  all_goals rfl

theorem deleteCustomersRoute_docs (st : DBState) (ids : List String) :
    (deleteCustomersRoute st ids).1.documents = st.documents := rfl

theorem clearAllCustomersRoute_docs (st : DBState) :
    (clearAllCustomersRoute st).1.documents = st.documents := rfl

theorem addCustomerHistoryRoute_docs (st : DBState) (cid : String)
    (action note : Option String) (entryId : String) :
    (addCustomerHistoryRoute st cid action note entryId).1.documents = st.documents := by
  unfold addCustomerHistoryRoute
  try dsimp only
  repeat' split
  all_goals rfl

theorem addLeadRoute_docs (st : DBState) (b : LeadBody) (genId : String) :
    (addLeadRoute st b genId).1.documents = st.documents := by
  unfold addLeadRoute
  try dsimp only
  repeat' split
  all_goals rfl

theorem updateLeadRoute_docs (st : DBState) (id : String) (p : LeadPatch) :
    (updateLeadRoute st id p).1.documents = st.documents := by
  unfold updateLeadRoute
  try dsimp only
  repeat' split
  all_goals rfl

theorem deleteLeadRoute_docs (st : DBState) (id : String) :
    (deleteLeadRoute st id).1.documents = st.documents := rfl

theorem addLeadHistoryRoute_docs (st : DBState) (leadId : String)
    (action note : Option String) (entryId : String) :
    (addLeadHistoryRoute st leadId action note entryId).1.documents = st.documents := by
  unfold addLeadHistoryRoute
  try dsimp only
  repeat' split
  all_goals rfl

theorem convertLeadRoute_docs (st : DBState) (id : String)
    (membership familyType salesmanId : Option String)
    (customerId regId joinDate histIdLead histIdCust : String) :
    (convertLeadRoute st id membership familyType salesmanId customerId
      regId joinDate histIdLead histIdCust).1.documents = st.documents := by
  unfold convertLeadRoute
  try dsimp only
  repeat' split
  all_goals rfl

theorem deleteDocumentRoute_docs (st : DBState) (docId : String) :
    (deleteCustomerDocumentRoute st docId).1.documents =
      st.documents.filter (fun d => d.id ≠ docId) := by
  unfold deleteCustomerDocumentRoute dbDeleteDocument
  try dsimp only
  repeat' split
  all_goals rfl

/-- C3: the upload route refuses with 409 — changing nothing — when the
customer already has a document, and consequently in every state the
server can reach no customer ever has more than one stored document. -/
theorem single_document_per_customer :
    (∀ (st : DBState) (cid : String) (filename contentBase64 dtype : Option String)
        (docId filePath : String),
        isBlank filename = false → isBlank contentBase64 = false →
        dbListDocuments cid st.documents ≠ [] →
        uploadCustomerDocumentRoute st cid filename contentBase64 dtype docId filePath
          = (st, ⟨409, false⟩)) ∧
    (∀ st : DBState, Reachable st →
      ∀ cid : String, (dbListDocuments cid st.documents).length ≤ 1) := by
  constructor
  · intro st cid filename contentBase64 dtype docId filePath h1 h2 hne
    unfold uploadCustomerDocumentRoute
    simp [h1, h2, List.isEmpty_iff, hne]
  · intro st h
    induction h with
    | init => intro cid; simp [initState, dbListDocuments]
    | stepAddCustomer st b g t _ ih =>
      intro cid; rw [addCustomerRoute_docs]; exact ih cid
    | stepAddCustomers st bodies gen today _ ih =>
      intro cid; rw [addCustomersRoute_docs]; exact ih cid
    | stepUpdateCustomer st id p _ ih =>
      intro cid; rw [updateCustomerRoute_docs]; exact ih cid
    | stepDeleteCustomer st id _ ih =>
      intro cid; rw [deleteCustomerRoute_docs]; exact ih cid
    | stepDeleteCustomers st ids _ ih =>
      intro cid; rw [deleteCustomersRoute_docs]; exact ih cid
    | stepClearAll st _ ih =>
      intro cid; rw [clearAllCustomersRoute_docs]; exact ih cid
    | stepAddCustomerHistory st cid0 action note entryId _ ih =>
      intro cid; rw [addCustomerHistoryRoute_docs]; exact ih cid
    | stepAddLead st b genId _ ih =>
      intro cid; rw [addLeadRoute_docs]; exact ih cid
    | stepUpdateLead st id p _ ih =>
      intro cid; rw [updateLeadRoute_docs]; exact ih cid
    | stepDeleteLead st id _ ih =>
      intro cid; rw [deleteLeadRoute_docs]; exact ih cid
    | stepAddLeadHistory st leadId action note entryId _ ih =>
      intro cid; rw [addLeadHistoryRoute_docs]; exact ih cid
    | stepConvertLead st id membership familyType salesmanId customerId regId joinDate hl hc _ ih =>
      intro cid; rw [convertLeadRoute_docs]; exact ih cid
    | stepDeleteDocument st docId _ ih =>
      intro cid
      rw [deleteDocumentRoute_docs]
      unfold dbListDocuments
      have hsub : List.Sublist
          ((st.documents.filter (fun d => d.id ≠ docId)).filter
            (fun d => d.customerId = cid))
          (st.documents.filter (fun d => d.customerId = cid)) :=
        List.Sublist.filter _ (List.filter_sublist _)
      exact le_trans hsub.length_le (ih cid)
    | stepUploadDocument st cid0 filename contentBase64 dtype docId filePath _ ih =>
      intro cid
      unfold uploadCustomerDocumentRoute
      dsimp only
      split
      · exact ih cid
      · split
        · exact ih cid
        · rename_i hguard
          have hempty : dbListDocuments cid0 st.documents = [] :=
            List.isEmpty_iff.mp (not_not.mp hguard)
          split
          · rename_i tbl1 heq
            unfold dbAddDocument at heq
            split at heq
            · simp at heq
            · have htbl := congrArg Prod.fst heq
              dsimp at htbl
              rw [← htbl]
              unfold dbListDocuments at hempty ⊢
              rw [List.filter_append]
              by_cases hc : cid0 = cid
              · have h0 : st.documents.filter (fun d => d.customerId = cid) = [] := by
                  rw [← hc]; exact hempty
                rw [h0]
                simp [hc]
              · simp only [List.filter_cons, List.filter_nil]
                simp [hc]
                exact ih cid
          · exact ih cid

end CRM

namespace CRM

/-- A stored document and a state holding it, for the C3 witness. -/
def wDoc : DocumentRow :=
  { id := "d1", customerId := "c1", type := "Other"
    filename := "f.pdf", filepath := "uploads/f.pdf" }

def wDocState : DBState := { initState with documents := [wDoc] }

/-- Concrete instantiation of the C3 theorem: a second upload for the
same customer is refused unchanged, and the fresh deployment satisfies
the bound. -/
theorem single_document_per_customer_witness :
    uploadCustomerDocumentRoute wDocState "c1" (some "g.pdf") (some "QUJD")
        none "d2" "uploads/g.pdf" = (wDocState, ⟨409, false⟩) ∧
    (dbListDocuments "c1" initState.documents).length ≤ 1 :=
  ⟨single_document_per_customer.1 wDocState "c1" (some "g.pdf") (some "QUJD")
      none "d2" "uploads/g.pdf" (by decide) (by decide) (by decide),
    single_document_per_customer.2 initState Reachable.init "c1"⟩

/-! ## C4: protection of the central admin -/

/-- A stored central admin and a central requester for counterexamples
and witnesses. -/
def wCentralRow : AdminRow :=
  { id := "a1", name := "Root", username := "root"
    passwordHash := "h0", role := "central", status := "active" }

def wRequester : ReqAdmin :=
  { id := "a9", username := "boss", name := "Boss", role := "central" }

/-- C4 counterexample: the claim says `handleUpdateAdmin` leaves a
central admin's record unmodified, but a name-only patch passes the
guard and rewrites the stored name. -/
theorem central_admin_update_counterexample :
    (handleUpdateAdmin (some wRequester) "a1" (some "Mallory") none none
      (fun s => s) [wCentralRow]).1 ≠ [wCentralRow] := by decide

/-- C4 (amended): suspending or deleting a central admin is refused
with 400 and no change, and so is any update that touches the central
admin's username or password; only a name-only update goes through. -/
theorem central_admin_protected
    (tbl : List AdminRow) (requester : ReqAdmin) (id : String)
    (target : AdminRow) (name username password : Option String)
    (hashFn : String → String)
    (hreq : requester.role = "central")
    (htgt : dbGetAdminById id tbl = some target)
    (hrole : target.role = "central") :
    handleSuspendAdmin (some requester) id tbl = (tbl, ⟨400, false⟩) ∧
    handleDeleteAdmin (some requester) id tbl = (tbl, ⟨400, false⟩) ∧
    ((isBlank username = false ∨ isBlank password = false) →
      handleUpdateAdmin (some requester) id name username password hashFn tbl
        = (tbl, ⟨400, false⟩)) := by
  have hnc : notCentral (some requester) = false := by
    simp [notCentral, hreq]
  refine ⟨?_, ?_, ?_⟩
  · simp [handleSuspendAdmin, hnc, htgt, hrole]
  · simp [handleDeleteAdmin, hnc, htgt, hrole]
  · intro hup
    rcases hup with hu | hp
    · simp [handleUpdateAdmin, hnc, htgt, hrole, hu]
    · simp [handleUpdateAdmin, hnc, htgt, hrole, hp]

/-- Concrete instantiation of the C4 amended theorem. -/
theorem central_admin_protected_witness :
    handleSuspendAdmin (some wRequester) "a1" [wCentralRow] = ([wCentralRow], ⟨400, false⟩) ∧
    handleDeleteAdmin (some wRequester) "a1" [wCentralRow] = ([wCentralRow], ⟨400, false⟩) ∧
    handleUpdateAdmin (some wRequester) "a1" none (some "newuser") none
      (fun s => s) [wCentralRow] = ([wCentralRow], ⟨400, false⟩) := by
  obtain ⟨h1, h2, h3⟩ := central_admin_protected [wCentralRow] wRequester "a1"
    wCentralRow none (some "newuser") none (fun s => s)
    (by decide) (by decide) (by decide)
  exact ⟨h1, h2, h3 (Or.inl (by decide))⟩

/-! ## C7: central-only gating of the admin-management handlers -/

/-- C7: an unauthenticated requester, or one whose role is `admin`
rather than `central`, is answered 403 with `success = false` by every
admin-management handler, with the admin table untouched and no data
returned. -/
theorem admin_routes_role_gated
    (requester : Option ReqAdmin) (tbl : List AdminRow) (id : String)
    (name username password role : Option String) (newId : String)
    (hashFn : String → String)
    (hreq : requester = none ∨ ∃ a, requester = some a ∧ a.role = "admin") :
    handleViewAdmins requester tbl = (⟨403, false⟩, none) ∧
    handleCreateAdmin requester name username password role newId hashFn tbl
      = (tbl, ⟨403, false⟩) ∧
    handleSuspendAdmin requester id tbl = (tbl, ⟨403, false⟩) ∧
    handleUnsuspendAdmin requester id tbl = (tbl, ⟨403, false⟩) ∧
    handleDeleteAdmin requester id tbl = (tbl, ⟨403, false⟩) ∧
    handleUpdateAdmin requester id name username password hashFn tbl
      = (tbl, ⟨403, false⟩) := by
  have hnc : notCentral requester = true := by
    rcases hreq with h | ⟨a, ha, hrole⟩
    · simp [h, notCentral]
    · simp [ha, notCentral, hrole]
  refine ⟨?_, ?_, ?_, ?_, ?_, ?_⟩ <;>
    simp [handleViewAdmins, handleCreateAdmin, handleSuspendAdmin,
      handleUnsuspendAdmin, handleDeleteAdmin, handleUpdateAdmin, hnc]

/-- Concrete instantiation of the C7 theorem for an `admin`-role
requester. -/
theorem admin_routes_role_gated_witness :
    handleViewAdmins (some ⟨"a2", "ops", "Ops", "admin"⟩) [wCentralRow]
      = (⟨403, false⟩, none) ∧
    handleDeleteAdmin (some ⟨"a2", "ops", "Ops", "admin"⟩) "a1" [wCentralRow]
      = ([wCentralRow], ⟨403, false⟩) := by
  obtain ⟨h1, -, -, -, h5, -⟩ := admin_routes_role_gated
    (some ⟨"a2", "ops", "Ops", "admin"⟩) [wCentralRow] "a1"
    none none none none "n1" (fun s => s)
    (Or.inr ⟨⟨"a2", "ops", "Ops", "admin"⟩, rfl, rfl⟩)
  exact ⟨h1, h5⟩

end CRM

namespace CRM

/-! ## C5 and C6: salesman salary and performance -/

/-- C5: every aggregate the salesmen page computes carries a salary of
base pay 15000 plus 500 per active customer, 250 per family customer,
150 per individual customer and 3000 times the conversion rate, where
the conversion rate is active over total customers (zero for an empty
pool). -/
theorem salary_formula (customers : List CustomerRow) :
    ∀ agg ∈ salesmenAggregates customers,
      agg.salary = 15000 + 500 * (agg.activeCustomers : ℚ)
        + 250 * (agg.familyCustomers : ℚ)
        + 150 * (agg.individualCustomers : ℚ)
        + 3000 * agg.conversionRate ∧
      agg.conversionRate =
        (if agg.totalCustomers = 0 then 0
         else (agg.activeCustomers : ℚ) / (agg.totalCustomers : ℚ)) := by
  intro agg hagg
  rw [salesmenAggregates, List.mem_mergeSort] at hagg
  obtain ⟨km, hkm, rfl⟩ := List.mem_map.mp hagg
  constructor
  · simp only [mkAggregate, calculateSalary, BASE_SALARY, ACTIVE_INCENTIVE,
      FAMILY_INCENTIVE, INDIVIDUAL_INCENTIVE, CONVERSION_MULTIPLIER]
    ring
  · simp [mkAggregate]

/-- The grouping of the one-customer sample state evaluates to a single
pool under salesman `s1`. -/
theorem wMetrics_eval : bySalesman [wRow] = [("s1", (⟨1, 1, 0, 0, 1⟩ : Metrics))] := by
  decide

/-- The aggregates of the one-customer sample state. -/
theorem wAggregates_eval :
    salesmenAggregates [wRow] = [mkAggregate ("s1", ⟨1, 1, 0, 0, 1⟩)] := by
  rw [salesmenAggregates, wMetrics_eval]
  simp

theorem wAgg_mem :
    mkAggregate ("s1", ⟨1, 1, 0, 0, 1⟩) ∈ salesmenAggregates [wRow] := by
  rw [wAggregates_eval]
  exact List.mem_singleton.mpr rfl

theorem wAssignedTotal : assignedTotal [wRow] = 1 := by
  have hu : isUnassignedId "s1" = false := by decide
  rw [assignedTotal, wAggregates_eval]
  simp [mkAggregate, hu]

/-- Concrete instantiation of the C5 theorem on the one-customer
sample. -/
theorem salary_formula_witness :
    (mkAggregate ("s1", ⟨1, 1, 0, 0, 1⟩)).salary
      = 15000 + 500 * ((mkAggregate ("s1", ⟨1, 1, 0, 0, 1⟩)).activeCustomers : ℚ)
      + 250 * ((mkAggregate ("s1", ⟨1, 1, 0, 0, 1⟩)).familyCustomers : ℚ)
      + 150 * ((mkAggregate ("s1", ⟨1, 1, 0, 0, 1⟩)).individualCustomers : ℚ)
      + 3000 * (mkAggregate ("s1", ⟨1, 1, 0, 0, 1⟩)).conversionRate :=
  (salary_formula [wRow] _ wAgg_mem).1

/-- C6 counterexample: the aggregate's `performanceScore` is the
weighted volume/activity/mix/conversion formula, not the share of the
assigned pool — on a single assigned active individual customer the
score is 63.3 while the share is 1. -/
theorem performance_share_counterexample :
    ∃ agg ∈ salesmenAggregates [wRow],
      agg.performanceScore ≠
        (agg.totalCustomers : ℚ) / (assignedTotal [wRow] : ℚ) := by
  refine ⟨mkAggregate ("s1", ⟨1, 1, 0, 0, 1⟩), wAgg_mem, ?_⟩
  rw [wAssignedTotal]
  have hps : (mkAggregate ("s1", (⟨1, 1, 0, 0, 1⟩ : Metrics))).performanceScore
      = 633 / 10 := by
    simp only [mkAggregate, calculatePerformance]
    norm_num
  rw [hps]
  norm_num [mkAggregate]

/-- C6 (amended): the performance figure the salesmen table and the
bar-chart tooltip render is the aggregate's share of the assigned
customer pool scaled to 100 — for every non-unassigned aggregate when
the pool is nonempty — while the Unassigned row renders a flat 100
whenever it holds customers. -/
theorem display_performance_share (customers : List CustomerRow) :
    ∀ agg ∈ salesmenAggregates customers,
      (isUnassignedId agg.id = false → 0 < assignedTotal customers →
        displayPerformancePercent agg (assignedTotal customers)
            (unassignedTotal customers)
          = (agg.totalCustomers : ℚ) / (assignedTotal customers : ℚ) * 100) ∧
      (isUnassignedId agg.id = true → 0 < unassignedTotal customers →
        displayPerformancePercent agg (assignedTotal customers)
            (unassignedTotal customers) = 100) := by
  intro agg hagg
  constructor
  · intro hu ha
    simp [displayPerformancePercent, hu, ha]
  · intro hu ha
    simp [displayPerformancePercent, hu, ha]

/-- Concrete instantiation of the amended C6 theorem. -/
theorem display_performance_share_witness :
    displayPerformancePercent (mkAggregate ("s1", ⟨1, 1, 0, 0, 1⟩))
        (assignedTotal [wRow]) (unassignedTotal [wRow])
      = ((mkAggregate ("s1", ⟨1, 1, 0, 0, 1⟩)).totalCustomers : ℚ)
          / (assignedTotal [wRow] : ℚ) * 100 :=
  (display_performance_share [wRow] _ wAgg_mem).1 (by decide)
    (by rw [wAssignedTotal]; decide)

end CRM
